import Mathlib

/-
  Verification development for the ACS Edge device-translation engine.

  Shallow embedding of:
  - the JavaScript value model used by the change filter in Device._handleData
  - the Device BIRTH / DATA / DEATH lifecycle state machine
  - the Metrics store (indices, getters, setters) from helpers/typeHandler.js
  - parseValFromBuffer (fixed-buffer binary decoding)
  - rehashTag from utils/FormatConfig.ts
  - Device._handleDCmd command routing and the local config rewrite
-/

/-- A JavaScript runtime value, as needed by the change filter and the
metric store. Numbers are split into finite integers and the special
value NaN; structured values (objects and arrays produced by decoding)
are represented by `vArr`. -/
inductive JSValue where
  | vNull
  | vUndef
  | vNaN
  | vBool (b : Bool)
  | vInt (n : Int)
  | vStr (s : String)
  | vArr (elems : List JSValue)
  deriving Repr

/-- Head test for the JS value null (strict comparison `=== null`). -/
def JSValue.isVNull : JSValue → Bool
  | .vNull => true
  | _ => false

/-- Head test for the JS value undefined. -/
def JSValue.isVUndef : JSValue → Bool
  | .vUndef => true
  | _ => false

/-- Head test for the JS value NaN. -/
def JSValue.isVNaN : JSValue → Bool
  | .vNaN => true
  | _ => false

/-- JS truthiness of a value: null, undefined, NaN, false, 0 and the
empty string are falsy; every other value in the domain is truthy. -/
def JSValue.truthy : JSValue → Bool
  | .vNull => false
  | .vUndef => false
  | .vNaN => false
  | .vBool b => b
  | .vInt n => n != 0
  | .vStr s => s ≠ ""
  | .vArr _ => true

/-- The guard expression `(newVal || newVal == 0)` from Device._handleData
(src/unnamed/part_000 line 233), evaluated case by case. JS only evaluates
the loose comparison `newVal == 0` on falsy values; on the falsy values of
the domain (null, undefined, NaN, false, 0, the empty string) it yields
(false, false, false, true, true, true). Hence the whole guard is false
exactly on null, undefined and NaN. -/
def jsGuardNonNull : JSValue → Bool
  | .vNull => false
  | .vUndef => false
  | .vNaN => false
  | .vBool _ => true
  | .vInt _ => true
  | .vStr _ => true
  | .vArr _ => true

/-- JS `typeof x === "object"`: true for null and for structured values. -/
def JSValue.typeofObject : JSValue → Bool
  | .vNull => true
  | .vArr _ => true
  | _ => false

/-- JS strict equality `===` on the value domain. NaN is not strictly
equal to anything, including itself. Two structured values are distinct
heap references in the caller (the decoded value is freshly allocated),
so strict equality on them is false; Device._handleData only consults
strict equality when the stored value is not of object type. -/
def JSValue.strictEq : JSValue → JSValue → Bool
  | .vNull, .vNull => true
  | .vUndef, .vUndef => true
  | .vBool a, .vBool b => a == b
  | .vInt a, .vInt b => a == b
  | .vStr a, .vStr b => a == b
  | _, _ => false

mutual

/-- util.isDeepStrictEqual: structural equality; unlike `===` it treats
NaN as equal to NaN (SameValue semantics on leaves). -/
def JSValue.deepEq : JSValue → JSValue → Bool
  | .vNull, .vNull => true
  | .vUndef, .vUndef => true
  | .vNaN, .vNaN => true
  | .vBool a, .vBool b => a == b
  | .vInt a, .vInt b => a == b
  | .vStr a, .vStr b => a == b
  | .vArr a, .vArr b => JSValue.deepEqList a b
  | _, _ => false

/-- Elementwise deep equality of structured contents. -/
def JSValue.deepEqList : List JSValue → List JSValue → Bool
  | [], [] => true
  | a :: as, b :: bs => JSValue.deepEq a b && JSValue.deepEqList as bs
  | _, _ => false

end

/-- The acceptance condition of the change filter in Device._handleData
(src/unnamed/part_000 lines 233-235):
`(newVal || newVal == 0) && (((typeof metric.value !== "object") &&
(metric.value !== newVal)) || !util.isDeepStrictEqual(metric.value, newVal))`. -/
def acceptNewVal (cur newVal : JSValue) : Bool :=
  jsGuardNonNull newVal &&
    ((!cur.typeofObject && !cur.strictEq newVal) || !cur.deepEq newVal)

/-- The acceptance condition as claim C1 words it: the value is accepted
iff it is not null and not undefined (0 counting as valid) and it differs
from the current value (strict inequality when the current value is
primitive, deep inequality otherwise). Written from the claim, to be
compared with `acceptNewVal`. -/
def c1ClaimedAccept (cur newVal : JSValue) : Bool :=
  (!newVal.isVNull && !newVal.isVUndef) &&
    ((!cur.typeofObject && !cur.strictEq newVal) || !cur.deepEq newVal)

/-- The amended acceptance condition: the new value must additionally not
be NaN. -/
def c1AmendedAccept (cur newVal : JSValue) : Bool :=
  (!newVal.isVNull && !newVal.isVUndef && !newVal.isVNaN) &&
    ((!cur.typeofObject && !cur.strictEq newVal) || !cur.deepEq newVal)

/-- JS `timestamp || Date.now()`: the fallback to the current time fires
whenever the supplied timestamp is falsy, i.e. absent or the number 0. -/
def effTimestamp (ts : Option Nat) (now : Nat) : Nat :=
  match ts with
  | none => now
  | some t => if t = 0 then now else t

/-- The mutable value-carrying fields of one stored metric, as updated by
the setters of the Metrics class. -/
structure MetricState where
  value : JSValue
  timestamp : Nat
  isNull : Bool
  deriving Repr

/-- One per-metric step of Device._handleData: if the decoded value is
accepted by the change filter the metric is updated through
setValueByAddrPath (value, timestamp with now-fallback, isNull) and
flagged as changed (pushed onto changedMetrics, hence published in the
DATA frame for this data event); otherwise the metric is untouched and
nothing is published for it. -/
def handleDataStep (m : MetricState) (newVal : JSValue) (ts : Option Nat)
    (now : Nat) : MetricState × Bool :=
  if acceptNewVal m.value newVal then
    ({ value := newVal, timestamp := effTimestamp ts now,
       isNull := newVal.isVNull }, true)
  else
    (m, false)

/-- A northbound Sparkplug frame class emitted for one device. -/
inductive Frame where
  | birth
  | data
  | death
  deriving Repr, DecidableEq

/-- The two state flags of a Device (src/unnamed/part_000 lines 104-105):
isAlive tracks whether a DBIRTH has been acknowledged with no DDEATH
since; isConnected tracks whether the southbound driver is usable. -/
structure DeviceState where
  isAlive : Bool
  isConnected : Bool
  deriving Repr, DecidableEq

/-- Device._publishDBirth (lines 350-362): when connected, publish BIRTH
and become alive on its acknowledgement (modelled synchronously); when
not connected, only log, publishing nothing. -/
def publishDBirth (s : DeviceState) : DeviceState × List Frame :=
  if s.isConnected then ({ s with isAlive := true }, [.birth])
  else (s, [])

/-- Device._publishDData (lines 367-376), invoked with a non-empty metric
list: publish DATA when alive, otherwise fall back to _publishDBirth. -/
def publishDData (s : DeviceState) : DeviceState × List Frame :=
  if s.isAlive then (s, [.data])
  else publishDBirth s

/-- Device.#publishDDeath (lines 380-385): when connected, publish DEATH
and clear isAlive; isConnected is not touched here. -/
def publishDDeath (s : DeviceState) : DeviceState × List Frame :=
  if s.isConnected then ({ s with isAlive := false }, [.death])
  else (s, [])

/-- Device._deviceDisconnected (lines 281-285), the driver close handler:
run #publishDDeath, then clear isConnected. -/
def deviceDisconnected (s : DeviceState) : DeviceState × List Frame :=
  let p := publishDDeath s
  ({ p.1 with isConnected := false }, p.2)

/-- Device._deviceConnected (lines 289-293): set isConnected and run
_publishDBirth. -/
def deviceConnected (s : DeviceState) : DeviceState × List Frame :=
  publishDBirth { s with isConnected := true }

/-- The external stimuli that drive the lifecycle of one Device. The
dataChanged event stands for an inbound data event whose change filter
accepted at least one metric, so that _handleData calls _publishDData;
rebirthCmd stands for a Device Control/Rebirth command with a truthy
value. -/
inductive DevEvent where
  | connected
  | disconnected
  | watchdog
  | dataChanged
  | rebirthCmd
  deriving Repr, DecidableEq

/-- Dispatch of one lifecycle event to the handler the source binds it
to (translator wiring in src/unnamed/part_001 lines 222-240, watchdog in
part_000 lines 198-200). -/
def deviceStep (s : DeviceState) (e : DevEvent) : DeviceState × List Frame :=
  match e with
  | .connected => deviceConnected s
  | .disconnected => deviceDisconnected s
  | .watchdog => publishDDeath s
  | .dataChanged => publishDData s
  | .rebirthCmd => publishDBirth s

/-- Run a sequence of lifecycle events, concatenating the frames each
step publishes. -/
def deviceRun (s : DeviceState) : List DevEvent → DeviceState × List Frame
  | [] => (s, [])
  | e :: es =>
      let p := deviceStep s e
      let q := deviceRun p.1 es
      (q.1, p.2 ++ q.2)

/-- The Device starts neither alive nor connected (part_000 lines
193-195). -/
def initialDeviceState : DeviceState := ⟨false, false⟩

/-- Epoch discipline of a frame trace, threading a flag that records
whether a BIRTH is in force (a BIRTH has been published with no DEATH
since): every DATA frame must occur while a BIRTH is in force. -/
def epochOk : Bool → List Frame → Bool
  | _, [] => true
  | _, .birth :: r => epochOk true r
  | _, .death :: r => epochOk false r
  | b, .data :: r => b && epochOk b r

/-- A frame trace in which every DATA is preceded by a BIRTH with no
intervening DEATH, starting from no birth in force. -/
def dataAfterBirth (fs : List Frame) : Bool := epochOk false fs

/-- Association list lookup, modelling read access to a plain JS object
used as a map (undefined when the key is absent). -/
def lookupA {κ β : Type} [DecidableEq κ] : List (κ × β) → κ → Option β
  | [], _ => none
  | (k, w) :: rest, key => if k = key then some w else lookupA rest key

/-- Association list update, modelling JS property assignment: replace in
place when the key is present, append otherwise. -/
def upsertA {κ β : Type} [DecidableEq κ] : List (κ × β) → κ → β → List (κ × β)
  | [], key, v => [(key, v)]
  | (k, w) :: rest, key, v =>
      if k = key then (key, v) :: rest else (k, w) :: upsertA rest key v

/-- The property sub-metrics that the metric store and the command
handler consult. `method` is present whenever the properties bag is
(the source reads it unguarded); `address` and `path` are individually
checked against null by the index builder, so they stay optional. -/
structure SparkplugPropertySet where
  method : String
  address : Option String
  path : Option String
  endianness : Option Int
  deriving Repr

/-- One metric of the store (helpers/typeHandler.js). `aliasNum` models
the `alias` attribute. -/
structure SparkplugMetric where
  name : Option String
  aliasNum : Option Nat
  value : JSValue
  type : String
  timestamp : Nat
  isNull : Bool
  isTransient : Bool
  properties : Option SparkplugPropertySet
  deriving Repr

/-- The test `value.search(/^GET/g) > -1`: the string begins with GET. -/
def strBeginsWith (s pre : String) : Bool :=
  pre.data.isPrefixOf s.data

/-- The guard of Metrics.#buildIndices (typeHandler.js line 98):
properties, address and path are non-null and the method value matches
the regular expression for a GET prefix. -/
def indexGuard (m : SparkplugMetric) : Bool :=
  match m.properties with
  | none => false
  | some p => p.address.isSome && p.path.isSome && strBeginsWith p.method "GET"

/-- The address key of an indexed metric (empty when absent; only read
under `indexGuard`). -/
def addrKey (m : SparkplugMetric) : String :=
  match m.properties with
  | some p => p.address.getD ""
  | none => ""

/-- The path key of an indexed metric (empty when absent; only read
under `indexGuard`). -/
def pathKey (m : SparkplugMetric) : String :=
  match m.properties with
  | some p => p.path.getD ""
  | none => ""

/-- The Metrics class of helpers/typeHandler.js: the ordered metric array
plus its four indices. -/
structure Metrics where
  array : List SparkplugMetric
  nameIndex : List (String × Nat)
  aliasIndex : List (Nat × Nat)
  addrIndex : List (String × List Nat)
  addrPathIndex : List (String × List (String × Nat))
  deriving Repr

/-- The loop body of Metrics.#buildIndices (lines 93-112) iterated over
the tail of the array, with `i` the position of the head metric in the
full array. Note the two consecutive pushes of `i` onto the address
index, exactly as in the source (lines 103-104). -/
def Metrics.buildIndicesAux (st : Metrics) (i : Nat) :
    List SparkplugMetric → Metrics
  | [] => st
  | m :: rest =>
      let st1 := { st with nameIndex := upsertA st.nameIndex (m.name.getD "") i }
      let st2 :=
        if indexGuard m then
          let addr := addrKey m
          let cur := (lookupA st1.addrIndex addr).getD []
          let st1a := { st1 with addrIndex := upsertA st1.addrIndex addr (cur ++ [i, i]) }
          let pcur := (lookupA st1a.addrPathIndex addr).getD []
          { st1a with
            addrPathIndex := upsertA st1a.addrPathIndex addr (upsertA pcur (pathKey m) i) }
        else st1
      Metrics.buildIndicesAux st2 (i + 1) rest

/-- Metrics.#buildIndices: walk the whole array from position 0. The
existing index contents are NOT cleared first, exactly as in the source. -/
def Metrics.buildIndices (st : Metrics) : Metrics :=
  Metrics.buildIndicesAux st 0 st.array

/-- The Metrics constructor: empty indices, then #buildIndices. -/
def Metrics.make (arr : List SparkplugMetric) : Metrics :=
  Metrics.buildIndices
    { array := arr, nameIndex := [], aliasIndex := [],
      addrIndex := [], addrPathIndex := [] }

/-- Metrics.add (lines 123-126): concatenate, then re-run #buildIndices
over the whole array on top of the existing indices. -/
def Metrics.add (st : Metrics) (ms : List SparkplugMetric) : Metrics :=
  Metrics.buildIndices { st with array := st.array ++ ms }

/-- Outcome of a JS operation: a value, or a thrown TypeError. -/
inductive JsResult (α : Type) where
  | ok (a : α)
  | typeError
  deriving Repr

/-- Metrics.setAlias (lines 113-116): write the alias onto the metric at
`index` and record it in the alias index. Throws when the index does not
denote an array entry. -/
def Metrics.setAlias (st : Metrics) (index : Nat) (a : Nat) :
    JsResult Metrics :=
  match st.array.get? index with
  | none => .typeError
  | some m =>
      .ok { st with
        array := st.array.set index { m with aliasNum := some a },
        aliasIndex := upsertA st.aliasIndex a index }

/-- Metrics.getByName (lines 130-132): `array[nameIndex[name]]`; an
unknown name indexes the array with undefined and yields undefined. -/
def Metrics.getByName (st : Metrics) (name : String) :
    JsResult (Option SparkplugMetric) :=
  .ok ((lookupA st.nameIndex name).bind (st.array.get? ·))

/-- The common body of the four value setters: assign value, timestamp
(with the `timestamp || Date.now()` fallback) and isNull (`value ===
null`) on the metric at position `i`, and return the mutated metric.
Indexing past the array (an unregistered key resolved to undefined)
throws a TypeError on the first assignment. -/
def Metrics.setValueByIndex (st : Metrics) (i : Nat) (v : JSValue)
    (ts : Option Nat) (now : Nat) : JsResult (Metrics × SparkplugMetric) :=
  match st.array.get? i with
  | none => .typeError
  | some m =>
      let m' := { m with value := v, timestamp := effTimestamp ts now,
                         isNull := v.isVNull }
      .ok ({ st with array := st.array.set i m' }, m')

/-- Metrics.setValueByName (lines 133-138). -/
def Metrics.setValueByName (st : Metrics) (name : String) (v : JSValue)
    (ts : Option Nat) (now : Nat) : JsResult (Metrics × SparkplugMetric) :=
  match lookupA st.nameIndex name with
  | none => .typeError
  | some i => Metrics.setValueByIndex st i v ts now

/-- Metrics.getByAlias (lines 150-152): like getByName, an unknown alias
yields undefined without throwing. -/
def Metrics.getByAlias (st : Metrics) (a : Nat) :
    JsResult (Option SparkplugMetric) :=
  .ok ((lookupA st.aliasIndex a).bind (st.array.get? ·))

/-- Metrics.setValueByAlias (lines 153-158). -/
def Metrics.setValueByAlias (st : Metrics) (a : Nat) (v : JSValue)
    (ts : Option Nat) (now : Nat) : JsResult (Metrics × SparkplugMetric) :=
  match lookupA st.aliasIndex a with
  | none => .typeError
  | some i => Metrics.setValueByIndex st i v ts now

/-- Metrics.getByAddress (lines 162-164): `addrIndex[addr].map(...)`; an
unregistered address makes the map call throw a TypeError. -/
def Metrics.getByAddress (st : Metrics) (addr : String) :
    JsResult (List (Option SparkplugMetric)) :=
  match lookupA st.addrIndex addr with
  | none => .typeError
  | some is => .ok (is.map (st.array.get? ·))

/-- Metrics.getPathsForAddr (lines 165-167): `Object.keys(... || {})`,
total thanks to the guard. -/
def Metrics.getPathsForAddr (st : Metrics) (addr : String) : List String :=
  ((lookupA st.addrPathIndex addr).getD []).map Prod.fst

/-- Metrics.getByAddrPath (lines 168-170): an unregistered address throws
(property access on undefined); a registered address with an unknown path
yields undefined. -/
def Metrics.getByAddrPath (st : Metrics) (addr path : String) :
    JsResult (Option SparkplugMetric) :=
  match lookupA st.addrPathIndex addr with
  | none => .typeError
  | some pmap => .ok ((lookupA pmap path).bind (st.array.get? ·))

/-- Metrics.setValueByAddrPath (lines 171-176): an unregistered address
throws; a registered address with an unknown path also throws (the value
assignment lands on undefined). -/
def Metrics.setValueByAddrPath (st : Metrics) (addr path : String)
    (v : JSValue) (ts : Option Nat) (now : Nat) :
    JsResult (Metrics × SparkplugMetric) :=
  match lookupA st.addrPathIndex addr with
  | none => .typeError
  | some pmap =>
      match lookupA pmap path with
      | none => .typeError
      | some i => Metrics.setValueByIndex st i v ts now

/-- Byte access into a Node Buffer modelled as a list of byte values
(reads used by the claims are in range; Node throws on out-of-range
reads, which no claim exercises). -/
def byteAt (buf : List Nat) (i : Nat) : Nat := buf.getD i 0

/-- Buffer.readUInt16BE. -/
def readUInt16BE (buf : List Nat) (off : Nat) : Nat :=
  byteAt buf off * 256 + byteAt buf (off + 1)

/-- Buffer.readUInt16LE. -/
def readUInt16LE (buf : List Nat) (off : Nat) : Nat :=
  byteAt buf (off + 1) * 256 + byteAt buf off

/-- Buffer.readUInt32BE. -/
def readUInt32BE (buf : List Nat) (off : Nat) : Nat :=
  ((byteAt buf off * 256 + byteAt buf (off + 1)) * 256
      + byteAt buf (off + 2)) * 256 + byteAt buf (off + 3)

/-- Buffer.readUInt32LE. -/
def readUInt32LE (buf : List Nat) (off : Nat) : Nat :=
  ((byteAt buf (off + 3) * 256 + byteAt buf (off + 2)) * 256
      + byteAt buf (off + 1)) * 256 + byteAt buf off

/-- Buffer.readBigUInt64BE. -/
def readUInt64BE (buf : List Nat) (off : Nat) : Nat :=
  readUInt32BE buf off * 4294967296 + readUInt32BE buf (off + 4)

/-- Buffer.readBigUInt64LE. -/
def readUInt64LE (buf : List Nat) (off : Nat) : Nat :=
  readUInt32LE buf (off + 4) * 4294967296 + readUInt32LE buf off

/-- Reinterpret a w-bit unsigned value as twos-complement signed. -/
def toSigned (w : Nat) (n : Nat) : Int :=
  if n < 2 ^ (w - 1) then (n : Int) else (n : Int) - 2 ^ w

/-- Buffer.swap16: swap the two bytes of each 16-bit word in place. -/
def pairSwap : List Nat → List Nat
  | a :: b :: rest => b :: a :: pairSwap rest
  | l => l

/-- Model of buf.subarray(off, off + len). -/
def subBytes (buf : List Nat) (off len : Nat) : List Nat :=
  (buf.drop off).take len

/-- getEndianString (typeHandler.js lines 485-496), applied to
`endianness || null`: the value 0 is falsy and also lands in the default
branch. -/
def getEndianString (e : Option Int) : String :=
  match e with
  | some 4321 => "BE"
  | some 1234 => "LE"
  | some 3412 => "PDP"
  | _ => ""

/-- Result of parseValFromBuffer. Number results are `num`; BigInt
results are `big`; float and double decodes are kept abstract as the
byte sequence handed to the IEEE-754 reader in big-endian order
(real-number decoding is not modelled); string decodes are kept abstract
as the raw bytes. -/
inductive BufVal where
  | num (n : Int)
  | big (n : Int)
  | boolV (b : Bool)
  | strBytes (bytes : List Nat)
  | float32 (bytesBE : List Nat)
  | float64 (bytesBE : List Nat)
  | undefinedVal
  deriving Repr, DecidableEq

/-- parseValFromBuffer (typeHandler.js lines 400-484): append the
endianness suffix unless the type is boolean/int8/uInt8, then dispatch on
the full type string. Note that the source case label uint64PDP has a
lower-case u, so the actual full type `uInt64PDP` falls through to the
default branch; and the boolean case returns -1 whenever `bit` is falsy
(absent or 0). -/
def parseValFromBuffer (type_ : String) (endianness : Option Int)
    (byteAddr : Nat) (buf : List Nat) (bit : Option Nat) : BufVal :=
  let fullType :=
    if type_ = "boolean" ∨ type_ = "int8" ∨ type_ = "uInt8" then type_
    else type_ ++ getEndianString endianness
  if fullType = "boolean" then
    match bit with
    | some b => if b ≠ 0 then .boolV ((byteAt buf byteAddr).testBit b) else .num (-1)
    | none => .num (-1)
  else if fullType = "int8" then .num (toSigned 8 (byteAt buf byteAddr))
  else if fullType = "int16BE" then .num (toSigned 16 (readUInt16BE buf byteAddr))
  else if fullType = "int16LE" then .num (toSigned 16 (readUInt16LE buf byteAddr))
  else if fullType = "int32BE" then .num (toSigned 32 (readUInt32BE buf byteAddr))
  else if fullType = "int32LE" then .num (toSigned 32 (readUInt32LE buf byteAddr))
  else if fullType = "int64BE" then .big (toSigned 64 (readUInt64BE buf byteAddr))
  else if fullType = "int64LE" then .big (toSigned 64 (readUInt64LE buf byteAddr))
  else if fullType = "int64PDP" then
    .big (toSigned 64 (readUInt64BE (pairSwap (subBytes buf byteAddr 8)) 0))
  else if fullType = "int32PDP" then
    .num (toSigned 32 (readUInt32BE (pairSwap (subBytes buf byteAddr 4)) 0))
  else if fullType = "uInt8" then .num (byteAt buf byteAddr)
  else if fullType = "uInt16BE" then .num (readUInt16BE buf byteAddr)
  else if fullType = "uInt16LE" then .num (readUInt16LE buf byteAddr)
  else if fullType = "uInt32BE" then .num (readUInt32BE buf byteAddr)
  else if fullType = "uInt32LE" then .num (readUInt32LE buf byteAddr)
  else if fullType = "uInt32PDP" then
    .num (readUInt32BE (pairSwap (subBytes buf byteAddr 4)) 0)
  else if fullType = "dateTimeBE" ∨ fullType = "uInt64BE" then
    .num (readUInt64BE buf byteAddr)
  else if fullType = "dateTimeLE" ∨ fullType = "uInt64LE" then
    .num (readUInt64LE buf byteAddr)
  else if fullType = "dateTimePDP" ∨ fullType = "uint64PDP" then
    .big (readUInt64BE (pairSwap (subBytes buf byteAddr 8)) 0)
  else if fullType = "floatBE" then .float32 (subBytes buf byteAddr 4)
  else if fullType = "floatLE" then .float32 (subBytes buf byteAddr 4).reverse
  else if fullType = "floatPDP" then .float32 (pairSwap (subBytes buf byteAddr 4))
  else if fullType = "doubleBE" then .float64 (subBytes buf byteAddr 8)
  else if fullType = "doubleLE" then .float64 (subBytes buf byteAddr 8).reverse
  else if fullType = "doublePDP" then .float64 (pairSwap (subBytes buf byteAddr 8))
  else if fullType = "uuid" then .strBytes buf
  else if fullType = "String" then .strBytes buf
  else .undefinedVal

/-- One left-to-right pass of the global regex replacement that deletes
the two-character sequences BE and LE: drop every non-overlapping
occurrence. -/
def stripBLEAux : List Char → List Char
  | [] => []
  | [c] => [c]
  | c1 :: c2 :: rest =>
      if (c1 = 'B' ∨ c1 = 'L') ∧ c2 = 'E' then stripBLEAux rest
      else c1 :: stripBLEAux (c2 :: rest)

/-- Model of the replace call that rewrites the type field, applied to a whole string. -/
def stripBLE (s : String) : String := String.mk (stripBLEAux s.data)

/-- String.endsWith on the character lists. -/
def strEndsWith (s suf : String) : Bool :=
  suf.data.reverse.isPrefixOf s.data.reverse

/-- The type and endianness fields of the metric produced by rehashTag. -/
structure RehashedTag where
  type : String
  endianness : Option Int
  deriving Repr, DecidableEq

/-- rehashTag (utils/FormatConfig.ts lines 31-58), restricted to the two
fields claim C3 is about. The source first overwrites `tag.type` with the
suffix-stripped string (line 33) and only afterwards evaluates the
endianness expression on the already mutated `tag.type` (line 53); the
intervening `if (tag.type == sparkplugDataType)` compares a string with
the enum container object, is always false, and so has no effect. -/
def rehashTag (declaredType : String) : RehashedTag :=
  let t := stripBLE declaredType
  { type := t,
    endianness :=
      if strEndsWith t "BE" then some 4321
      else if strEndsWith t "LE" then some 1234
      else none }

/-- The tag rehashing claim C3 (and spec section 4.6) describes: derive
endianness from the suffix of the declared type and then strip it.
Written from the spec, to be compared with `rehashTag`. -/
def rehashTagClaimed (declaredType : String) : RehashedTag :=
  { type := stripBLE declaredType,
    endianness :=
      if strEndsWith declaredType "BE" then some 4321
      else if strEndsWith declaredType "LE" then some 1234
      else none }

/-- One metric of an inbound DCMD payload. Alias-only command metrics
(resolved through getByAlias at part_000 lines 449-452) are outside the
claims; modelled command metrics carry their resolved name. -/
structure CmdMetric where
  name : String
  value : JSValue
  timestamp : Option Nat
  deriving Repr

/-- The externally visible effects that Device._handleDCmd initiates, in
initiation order. -/
inductive DevAction where
  | stopSubscription
  | updateStoreValue (name : String) (v : JSValue)
  | publishData (ms : List CmdMetric)
  | publishBirth
  | startSubscription (intervalMs : JSValue)
  | writeConfigKey (key : String) (v : JSValue)
  | driverWrite (batch : List SparkplugMetric)
  | logReadOnly (name : String)
  | logRebootStub
  deriving Repr

/-- The device context a DCMD handler runs in: the metric store and the
two lifecycle flags. -/
structure CmdContext where
  store : Metrics
  alive : Bool
  connected : Bool
  deriving Repr

/-- Actions initiated by a _publishDData call from the command handler
(part_000 lines 367-376): DATA when alive, else a DBIRTH attempt which
publishes (and sets alive) only when connected. -/
def publishDDataActions (c : CmdContext) (ms : List CmdMetric) :
    CmdContext × List DevAction :=
  if c.alive then (c, [.publishData ms])
  else if c.connected then ({ c with alive := true }, [.publishBirth])
  else (c, [])

/-- Name of the polling interval control metric. -/
def pollName : String := "Device Control/Polling Interval"

/-- Method string of the properties bag, read unguarded as in the source
(only consulted when the bag is present). -/
def propsMethod (m : SparkplugMetric) : String :=
  match m.properties with
  | some p => p.method
  | none => ""

/-- The switch body of Device._handleDCmd (part_000 lines 454-500) for
one payload metric: returns the new context, the actions initiated for
this metric, and the metrics it queued onto metricsToWrite. The value
narrowing for 64-bit integers (lines 483-485) is identity on this value
domain. -/
def handleCmdMetric (c : CmdContext) (m : CmdMetric) (now : Nat) :
    JsResult (CmdContext × List DevAction × List SparkplugMetric) :=
  if m.name = "Device Control/Reboot" then
    .ok (c, (if m.value.truthy then [.logRebootStub] else []), [])
  else if m.name = "Device Control/Rebirth" then
    if m.value.truthy then
      (if c.connected then .ok ({ c with alive := true }, [.publishBirth], [])
       else .ok (c, [], []))
    else .ok (c, [], [])
  else if m.name = pollName then
    match Metrics.setValueByName c.store m.name m.value
        (some (effTimestamp m.timestamp now)) now with
    | .typeError => .typeError
    | .ok (st', _) =>
        let c1 := { c with store := st' }
        let p := publishDDataActions c1 [m]
        match Metrics.getByName p.1.store pollName with
        | .ok (some pollMetric) =>
            .ok (p.1,
              [.stopSubscription, .updateStoreValue m.name m.value] ++ p.2 ++
                [.startSubscription pollMetric.value,
                 .writeConfigKey "pollInt" m.value], [])
        | .ok none => .typeError
        | .typeError => .typeError
  else
    match Metrics.getByName c.store m.name with
    | .ok (some oldMetric) =>
        if oldMetric.properties.isSome && propsMethod oldMetric ≠ "GET" then
          .ok (c, [], [{ oldMetric with value := m.value }])
        else
          .ok (c, [.logReadOnly m.name], [])
    | .ok none => .ok (c, [.logReadOnly m.name], [])
    | .typeError => .typeError

/-- The payload loop of Device._handleDCmd, accumulating actions and the
metricsToWrite queue in payload order. -/
def handleDCmdAux (c : CmdContext) (now : Nat) :
    List CmdMetric → JsResult (CmdContext × List DevAction × List SparkplugMetric)
  | [] => .ok (c, [], [])
  | m :: rest =>
      match handleCmdMetric c m now with
      | .typeError => .typeError
      | .ok (c1, acts1, q1) =>
          match handleDCmdAux c1 now rest with
          | .typeError => .typeError
          | .ok (c2, acts2, q2) => .ok (c2, acts1 ++ acts2, q1 ++ q2)

/-- Device._handleDCmd (part_000 lines 440-505): process every payload
metric, then flush the queued writes as one batch through #writeMetrics
when the queue is non-empty. -/
def handleDCmd (c : CmdContext) (payload : List CmdMetric) (now : Nat) :
    JsResult (CmdContext × List DevAction) :=
  match handleDCmdAux c now payload with
  | .typeError => .typeError
  | .ok (c', acts, q) =>
      .ok (c', acts ++ (if q.isEmpty then [] else [.driverWrite q]))

/-- Membership in the three Device Control metric names. -/
def isControlName (n : String) : Bool :=
  n = "Device Control/Reboot" || n = "Device Control/Rebirth" || n = pollName

/-- One device entry of the local config file: its deviceId plus its
other keys. -/
structure ConfDevice where
  deviceId : String
  entries : List (String × JSValue)
  deriving Repr

/-- One connection entry of the local config file. -/
structure ConfConnection where
  devices : List ConfDevice
  deriving Repr

/-- The device loop of Device.#updateConfig (part_000 lines 417-425): in
one connection, assign `dev[key] = value` on the FIRST device whose
deviceId matches and break. -/
def updateDevices : List ConfDevice → String → String → JSValue → List ConfDevice
  | [], _, _, _ => []
  | d :: rest, devName, k, v =>
      if d.deviceId = devName then
        { d with entries := upsertA d.entries k v } :: rest
      else d :: updateDevices rest devName k v

/-- Device.#updateConfig (part_000 lines 405-435): walk every connection
of the parsed config document and update the matching device entries,
then write the document back. -/
def updateConfig (conf : List ConfConnection) (devName k : String)
    (v : JSValue) : List ConfConnection :=
  conf.map fun c => { c with devices := updateDevices c.devices devName k v }

/-- Projection of a setter result onto the returned timestamp. -/
def resultTimestamp : JsResult (Metrics × SparkplugMetric) → Option Nat
  | .ok p => some p.2.timestamp
  | .typeError => none

/-- The birth-in-force flag after processing a frame list. -/
def epochFlag : Bool → List Frame → Bool
  | b, [] => b
  | _, .birth :: r => epochFlag true r
  | _, .death :: r => epochFlag false r
  | b, .data :: r => epochFlag b r

/-- A plain named metric used for concrete store instances. -/
def metric8 : SparkplugMetric :=
  { name := some "M", aliasNum := none, value := .vInt 1, type := "int32",
    timestamp := 5, isNull := false, isTransient := false, properties := none }

/-- A store holding just `metric8`. -/
def store8 : Metrics := Metrics.make [metric8]

/-- Duplicate every element in place. -/
def dupEach {α : Type} : List α → List α
  | [] => []
  | x :: xs => x :: x :: dupEach xs

/-- A metric that the index builder files under address `a`. -/
def matchesAddr (a : String) (m : SparkplugMetric) : Bool :=
  indexGuard m && (addrKey m == a)

/-- Positions (counted from `i`) of the metrics filed under address `a`. -/
def matchingIdxAux (a : String) : Nat → List SparkplugMetric → List Nat
  | _, [] => []
  | i, m :: rest =>
      if matchesAddr a m then i :: matchingIdxAux a (i + 1) rest
      else matchingIdxAux a (i + 1) rest

/-- The metrics of `l` filed under address `a`. -/
def matchingMetrics (l : List SparkplugMetric) (a : String) :
    List SparkplugMetric :=
  l.filter (matchesAddr a)

/-- Extension of one address-index entry by the doubled pushes of the
index builder. -/
def extendOpt (cur : Option (List Nat)) (js : List Nat) : Option (List Nat) :=
  match cur, js with
  | none, [] => none
  | c, js => some (c.getD [] ++ dupEach js)

/-- A GET metric at address A, used for concrete store instances. -/
def metricG : SparkplugMetric :=
  { name := some "G", aliasNum := none, value := .vInt 0, type := "int32",
    timestamp := 0, isNull := false, isTransient := false,
    properties := some { method := "GET", address := some "A",
                         path := some "p", endianness := none } }

/-- The metric (with the commanded value) that the default DCMD case
queues onto metricsToWrite, when it queues one. -/
def writableTarget (store : Metrics) (m : CmdMetric) : Option SparkplugMetric :=
  match Metrics.getByName store m.name with
  | .ok (some pm) =>
      if pm.properties.isSome && propsMethod pm ≠ "GET" then
        some { pm with value := m.value }
      else none
  | .ok none => none
  | .typeError => none

/-- The read-only log action the default DCMD case emits, when it emits
one. -/
def readOnlyLog (store : Metrics) (m : CmdMetric) : List DevAction :=
  match Metrics.getByName store m.name with
  | .ok (some pm) =>
      if pm.properties.isSome && propsMethod pm ≠ "GET" then []
      else [.logReadOnly m.name]
  | .ok none => [.logReadOnly m.name]
  | .typeError => [.logReadOnly m.name]

/-- All read-only logs of a payload, in payload order. -/
def dcmdLogs (store : Metrics) (payload : List CmdMetric) : List DevAction :=
  (payload.map (readOnlyLog store)).flatten

/-- All queued writes of a payload, in payload order. -/
def dcmdQueued (store : Metrics) (payload : List CmdMetric) :
    List SparkplugMetric :=
  payload.filterMap (writableTarget store)

/-- The final flush of the metricsToWrite queue: one batch driver write
when the queue is non-empty. -/
def dcmdFlush (q : List SparkplugMetric) : List DevAction :=
  if q.isEmpty then [] else [.driverWrite q]

/-- A metric whose method starts with GET without being exactly GET. -/
def metricT : SparkplugMetric :=
  { name := some "T", aliasNum := none, value := .vInt 1, type := "int32",
    timestamp := 0, isNull := false, isTransient := false,
    properties := some { method := "GET_POLL", address := some "a",
                         path := some "p", endianness := none } }

/-- A store holding just `metricT`. -/
def storeT : Metrics := Metrics.make [metricT]

/-- A command context over `storeT`, alive and connected. -/
def ctxT : CmdContext := { store := storeT, alive := true, connected := true }

/-- A store holding just the exactly-GET metric `metricG`. -/
def storeG : Metrics := Metrics.make [metricG]

/-- A command context over `storeG`, alive and connected. -/
def ctxG : CmdContext := { store := storeG, alive := true, connected := true }

/-- The updated metric a setter produces. -/
def updatedMetric (m : SparkplugMetric) (v : JSValue) (ts : Option Nat)
    (now : Nat) : SparkplugMetric :=
  { m with value := v, timestamp := effTimestamp ts now,
           isNull := v.isVNull }

/-- A command context with the array of its store replaced. -/
def setStoreArray (c : CmdContext) (arr : List SparkplugMetric) : CmdContext :=
  { c with store := { c.store with array := arr } }

/-- The polling interval control metric of a concrete device. -/
def pollMetric6 : SparkplugMetric :=
  { name := some pollName, aliasNum := none, value := .vInt 1000,
    type := "uInt16", timestamp := 0, isNull := false, isTransient := true,
    properties := none }

/-- A store holding just `pollMetric6`. -/
def store6 : Metrics := Metrics.make [pollMetric6]

/-- A live, connected command context over `store6`. -/
def ctx6 : CmdContext := { store := store6, alive := true, connected := true }

/-- One device entry of a concrete local config document. -/
def confDev6 : ConfDevice :=
  { deviceId := "dev1", entries := [("pollInt", JSValue.vInt 1000)] }

/-- One connection entry of a concrete local config document. -/
def confConn6 : ConfConnection := { devices := [confDev6] }

/-- A concrete local config document. -/
def conf6 : List ConfConnection := [confConn6]

/-- Projection of a command handler result onto the initiated actions. -/
def resultActions : JsResult (CmdContext × List DevAction) → List DevAction
  | .ok p => p.2
  | .typeError => []

/-- The publish actions that the _publishDData call of the polling
interval branch initiates, as a function of the two lifecycle flags:
DATA carrying the command metric when alive, a BIRTH instead when not
alive but connected, and nothing when disconnected. -/
def pollPublish (alive connected : Bool) (m : CmdMetric) : List DevAction :=
  if alive then [.publishData [m]]
  else if connected then [.publishBirth]
  else []

/-- The command context after the polling interval branch: the store
array is replaced, and the device is alive when it already was or when
the fallback BIRTH of _publishDData just made it so (connected). -/
def pollResultCtx (c : CmdContext) (arr : List SparkplugMetric) : CmdContext :=
  { c with store := { c.store with array := arr },
           alive := c.alive || c.connected }

/-- A connected but not alive command context over store6, as after a
watchdog DEATH. -/
def ctx6dead : CmdContext :=
  { store := store6, alive := false, connected := true }

mutual

theorem JSValue.deepEq_refl : ∀ a : JSValue, JSValue.deepEq a a = true
  | .vNull => rfl
  | .vUndef => rfl
  | .vNaN => rfl
  | .vBool b => by simp [JSValue.deepEq]
  | .vInt n => by simp [JSValue.deepEq]
  | .vStr s => by simp [JSValue.deepEq]
  | .vArr l => by simpa [JSValue.deepEq] using JSValue.deepEqList_refl l

theorem JSValue.deepEqList_refl : ∀ l : List JSValue,
    JSValue.deepEqList l l = true
  | [] => rfl
  | a :: as => by
      simp [JSValue.deepEqList, JSValue.deepEq_refl a,
        JSValue.deepEqList_refl as]

end

theorem lookupA_upsertA_self {κ β : Type} [DecidableEq κ]
    (l : List (κ × β)) (k : κ) (v : β) :
    lookupA (upsertA l k v) k = some v := by
  induction l with
  | nil => simp [upsertA, lookupA]
  | cons hd tl ih =>
      by_cases h : hd.1 = k
      · simp [upsertA, lookupA, h]
      · simp only [upsertA, lookupA]
        rw [if_neg h, lookupA, if_neg h]
        exact ih

theorem lookupA_upsertA_ne {κ β : Type} [DecidableEq κ]
    (l : List (κ × β)) (k k' : κ) (v : β) (h : k ≠ k') :
    lookupA (upsertA l k v) k' = lookupA l k' := by
  induction l with
  | nil => simp [upsertA, lookupA, h]
  | cons hd tl ih =>
      by_cases hh : hd.1 = k
      · simp only [upsertA, lookupA]
        rw [if_pos hh, lookupA, if_neg h, if_neg (hh ▸ h)]
      · simp only [upsertA, lookupA]
        rw [if_neg hh, lookupA]
        by_cases hk : hd.1 = k'
        · rw [if_pos hk, if_pos hk]
        · rw [if_neg hk, if_neg hk]
          exact ih

theorem jsGuardNonNull_eq (v : JSValue) :
    jsGuardNonNull v = (!v.isVNull && !v.isVUndef && !v.isVNaN) := by
  cases v <;> rfl

theorem acceptNewVal_self (v : JSValue) : acceptNewVal v v = false := by
  have hdeep := JSValue.deepEq_refl v
  cases v <;>
    simp_all [acceptNewVal, jsGuardNonNull, JSValue.typeofObject,
      JSValue.strictEq, JSValue.deepEq]

/-- Claim C1 (amended): the change filter of Device._handleData accepts a
decoded value iff it is not null, not undefined and not NaN (0 counting
as valid) and it differs from the stored value (strict inequality for a
primitive stored value, deep inequality otherwise); consequently, when
an accepted value arrives and the identical value arrives again next,
the first inbound event updates the metric and publishes it, and the
second is filtered out, so the pair yields exactly one DATA publish. -/
theorem C1_change_filter :
    (∀ cur newVal : JSValue,
      acceptNewVal cur newVal = c1AmendedAccept cur newVal) ∧
    (∀ (m : MetricState) (v : JSValue) (ts₁ ts₂ : Option Nat)
        (now₁ now₂ : Nat),
      acceptNewVal m.value v = true →
      (handleDataStep m v ts₁ now₁).2 = true ∧
      (handleDataStep (handleDataStep m v ts₁ now₁).1 v ts₂ now₂).2 = false) := by
  constructor
  · intro cur newVal
    rw [acceptNewVal, c1AmendedAccept, jsGuardNonNull_eq]
  · intro m v ts₁ ts₂ now₁ now₂ h
    rw [handleDataStep, if_pos h]
    refine ⟨rfl, ?_⟩
    rw [handleDataStep, if_neg ?_]
    simp [acceptNewVal_self v]

/-- Claim C1 counterexample: NaN is neither null nor undefined and
differs (strictly) from the stored value 0, so the claimed filter
accepts it, but the code rejects it (`NaN || NaN == 0` is false). -/
theorem C1_counterexample :
    c1ClaimedAccept (.vInt 0) .vNaN = true ∧
    acceptNewVal (.vInt 0) .vNaN = false :=
  ⟨rfl, rfl⟩

theorem C1_witness :
    acceptNewVal (.vInt 0) (.vInt 1) = c1AmendedAccept (.vInt 0) (.vInt 1) ∧
    ((handleDataStep ⟨.vInt 0, 5, false⟩ (.vInt 1) none 7).2 = true ∧
     (handleDataStep (handleDataStep ⟨.vInt 0, 5, false⟩ (.vInt 1) none 7).1
        (.vInt 1) none 8).2 = false) :=
  ⟨C1_change_filter.1 (.vInt 0) (.vInt 1),
   C1_change_filter.2 ⟨.vInt 0, 5, false⟩ (.vInt 1) none none 7 8 rfl⟩

theorem epochOk_append : ∀ (xs : List Frame) (b : Bool) (ys : List Frame),
    epochOk b (xs ++ ys) = (epochOk b xs && epochOk (epochFlag b xs) ys)
  | [], b, ys => by simp [epochOk, epochFlag]
  | .birth :: r, b, ys => by
      simp [epochOk, epochFlag, epochOk_append r true ys]
  | .death :: r, b, ys => by
      simp [epochOk, epochFlag, epochOk_append r false ys]
  | .data :: r, b, ys => by
      cases b <;> simp [epochOk, epochFlag, epochOk_append r, Bool.and_assoc]

theorem deviceRun_epochOk : ∀ (evs : List DevEvent) (s : DeviceState),
    epochOk s.isAlive (deviceRun s evs).2 = true := by
  intro evs
  induction evs with
  | nil => intro s; rfl
  | cons e es ih =>
      intro s
      rcases s with ⟨a, c⟩
      cases e <;> cases a <;> cases c <;>
        simp only [deviceRun, deviceStep, deviceConnected, deviceDisconnected,
          publishDBirth, publishDData, publishDDeath, if_true, if_false,
          Bool.true_and, Bool.false_and, List.nil_append, List.cons_append,
          epochOk] <;>
        first
          | exact ih ⟨true, true⟩
          | exact ih ⟨false, true⟩
          | exact ih ⟨true, false⟩
          | exact ih ⟨false, false⟩

/-- Claim C2 (amended): a _publishDData call while isAlive is false
publishes no DATA frame, and publishes a BIRTH instead exactly when the
device is connected (nothing is published while disconnected); as a
consequence, in every run of the lifecycle machine from the initial
state, every DATA frame is preceded by a BIRTH with no intervening
DEATH, so BIRTH strictly precedes the first DATA of each birth epoch. -/
theorem C2_birth_before_data :
    (∀ s : DeviceState, s.isAlive = false →
      Frame.data ∉ (publishDData s).2 ∧
      ((publishDData s).2 = [Frame.birth] ↔ s.isConnected = true)) ∧
    (∀ evs : List DevEvent,
      dataAfterBirth (deviceRun initialDeviceState evs).2 = true) := by
  constructor
  · intro s h
    rcases s with ⟨a, c⟩
    cases a <;> cases c <;> simp_all [publishDData, publishDBirth]
  · intro evs
    exact deviceRun_epochOk evs initialDeviceState

/-- Claim C2 counterexample: with isAlive and isConnected both false, a
_publishDData call publishes nothing at all, in particular no BIRTH. -/
theorem C2_counterexample :
    (publishDData { isAlive := false, isConnected := false }).2 = [] ∧
    Frame.birth ∉ (publishDData { isAlive := false, isConnected := false }).2 := by
  exact ⟨rfl, by decide⟩

theorem C2_witness :
    (Frame.data ∉ (publishDData { isAlive := false, isConnected := true }).2 ∧
      ((publishDData { isAlive := false, isConnected := true }).2 = [Frame.birth] ↔
        ({ isAlive := false, isConnected := true } : DeviceState).isConnected = true)) ∧
    dataAfterBirth
      (deviceRun initialDeviceState [.connected, .dataChanged, .watchdog]).2 = true :=
  ⟨C2_birth_before_data.1 { isAlive := false, isConnected := true } rfl,
   C2_birth_before_data.2 [.connected, .dataChanged, .watchdog]⟩

/-- Claim C7 (amended): on a driver close event the Device always clears
isConnected, publishes a DEATH frame exactly when it was connected, and
clears isAlive when it was connected; on watchdog expiry the Device
publishes a DEATH frame exactly when connected and clears isAlive when
connected, but leaves isConnected unchanged. -/
theorem C7_death_and_flags :
    ∀ s : DeviceState,
      ((deviceDisconnected s).1.isConnected = false ∧
       (deviceDisconnected s).2 = (if s.isConnected then [Frame.death] else []) ∧
       (s.isConnected = true → (deviceDisconnected s).1.isAlive = false)) ∧
      ((publishDDeath s).1.isConnected = s.isConnected ∧
       (publishDDeath s).2 = (if s.isConnected then [Frame.death] else []) ∧
       (s.isConnected = true → (publishDDeath s).1.isAlive = false)) := by
  intro s
  rcases s with ⟨a, c⟩
  cases a <;> cases c <;> simp [deviceDisconnected, publishDDeath]

/-- Claim C7 counterexample: watchdog expiry on an alive, connected
device leaves isConnected set, so it does not clear both state flags. -/
theorem C7_counterexample :
    (publishDDeath { isAlive := true, isConnected := true }).1.isConnected = true ∧
    (publishDDeath { isAlive := true, isConnected := true }).2 = [Frame.death] :=
  ⟨rfl, rfl⟩

theorem C7_witness :
    (deviceDisconnected { isAlive := true, isConnected := true }).1.isAlive = false ∧
    (publishDDeath { isAlive := true, isConnected := true }).1.isAlive = false :=
  ⟨(C7_death_and_flags { isAlive := true, isConnected := true }).1.2.2 rfl,
   (C7_death_and_flags { isAlive := true, isConnected := true }).2.2.2 rfl⟩

/-- Claim C3: the code bug demonstrated. rehashTag first overwrites the
declared type with the suffix-stripped string and only then derives
endianness from it, so a tag declared uInt32BE comes out with the type
correctly stripped but with endianness null instead of 4321, and a tag
declared int16LE with endianness null instead of 1234. The claimed
(spec-intended) behaviour, which derives endianness from the original
declared type, differs on both inputs. -/
theorem C3_endianness_lost :
    rehashTag "uInt32BE" = { type := "uInt32", endianness := none } ∧
    rehashTagClaimed "uInt32BE" = { type := "uInt32", endianness := some 4321 } ∧
    rehashTag "int16LE" = { type := "int16", endianness := none } ∧
    rehashTagClaimed "int16LE" = { type := "int16", endianness := some 1234 } ∧
    rehashTag "float" = { type := "float", endianness := none } ∧
    rehashTagClaimed "float" = { type := "float", endianness := none } := by
  refine ⟨by decide, by decide, by decide, by decide, by decide, by decide⟩

/-- Claim C5 (amended): decoding a uInt32 metric with PDP endianness
(3412) at byte offset 0 from the buffer 01 02 03 04 yields 0x02010403
(33620995), not 0x03040102: the source swaps the bytes within each
16-bit word and then reads big-endian, which matches the byte numbering
of the byteOrder enum (littleEndian = 1234, bigEndian = 4321, so
PDPEndian = 3412 stores value bytes 3,4,1,2 counting from the least
significant). The general shape on four raw bytes is also proved. -/
theorem C5_pdp_decode :
    parseValFromBuffer "uInt32" (some 3412) 0 [1, 2, 3, 4] none =
      .num 33620995 ∧
    (∀ b0 b1 b2 b3 : Nat,
      parseValFromBuffer "uInt32" (some 3412) 0 [b0, b1, b2, b3] none =
        .num (((b1 * 256 + b0) * 256 + b3) * 256 + b2)) := by
  refine ⟨by decide, ?_⟩
  intro b0 b1 b2 b3
  rfl

/-- Claim C5 counterexample: the decode does not produce 0x03040102
(50594050) on the buffer 01 02 03 04. -/
theorem C5_counterexample :
    parseValFromBuffer "uInt32" (some 3412) 0 [1, 2, 3, 4] none ≠
      .num 50594050 := by
  decide

theorem listGet?_set_ne {α : Type} :
    ∀ (l : List α) (i j : Nat) (a : α), i ≠ j →
      (l.set i a).get? j = l.get? j
  | [], _, _, _, _ => rfl
  | _ :: _, 0, 0, _, h => absurd rfl h
  | _ :: _, 0, _ + 1, _, _ => rfl
  | _ :: _, _ + 1, 0, _, _ => rfl
  | _ :: xs, i + 1, j + 1, a, h => by
      simpa [List.set, List.get?] using
        listGet?_set_ne xs i j a (fun hh => h (by rw [hh]))

theorem listGet?_set_self {α : Type} :
    ∀ (l : List α) (i : Nat) (a b : α), l.get? i = some b →
      (l.set i a).get? i = some a
  | [], i, _, _, h => by simp [List.get?] at h
  | _ :: _, 0, _, _, _ => rfl
  | _ :: xs, i + 1, a, b, h => by
      simpa [List.set, List.get?] using listGet?_set_self xs i a b h

/-- Claim C8 (amended): every metric-store setter writes value, timestamp
and isNull together in one operation and returns the mutated metric; the
timestamp written is the given one when it is nonzero, and the current
time when no timestamp is given or the given one is 0 (the JS
`timestamp || Date.now()` fallback); isNull is set exactly when the new
value is null; no other field of the metric and no other metric of the
store is modified. The three keyed setters coincide with the positional
update at the index their key resolves to. -/
theorem C8_setters :
    ∀ (st : Metrics) (v : JSValue) (ts : Option Nat) (now : Nat),
      (∀ (i : Nat) (m : SparkplugMetric), st.array.get? i = some m →
        let m' : SparkplugMetric :=
          { m with value := v, timestamp := effTimestamp ts now,
                   isNull := v.isVNull }
        Metrics.setValueByIndex st i v ts now =
          .ok ({ st with array := st.array.set i m' }, m')) ∧
      (∀ (n : String) (i : Nat), lookupA st.nameIndex n = some i →
        Metrics.setValueByName st n v ts now =
          Metrics.setValueByIndex st i v ts now) ∧
      (∀ (a i : Nat), lookupA st.aliasIndex a = some i →
        Metrics.setValueByAlias st a v ts now =
          Metrics.setValueByIndex st i v ts now) ∧
      (∀ (addr path : String) (pmap : List (String × Nat)) (i : Nat),
        lookupA st.addrPathIndex addr = some pmap →
        lookupA pmap path = some i →
        Metrics.setValueByAddrPath st addr path v ts now =
          Metrics.setValueByIndex st i v ts now) ∧
      (∀ (i j : Nat) (m' : SparkplugMetric), i ≠ j →
        (st.array.set i m').get? j = st.array.get? j) := by
  intro st v ts now
  refine ⟨?_, ?_, ?_, ?_, ?_⟩
  · intro i m h
    simp only [Metrics.setValueByIndex, h]
  · intro n i h
    simp [Metrics.setValueByName, h]
  · intro a i h
    simp [Metrics.setValueByAlias, h]
  · intro addr path pmap i h1 h2
    simp [Metrics.setValueByAddrPath, h1, h2]
  · intro i j m' h
    exact listGet?_set_ne st.array i j m' h

/-- Claim C8 counterexample: a setter called with the given timestamp 0
writes the current time (here 99) instead of the given timestamp, because
`timestamp || Date.now()` treats 0 as absent. -/
theorem C8_counterexample :
    resultTimestamp (Metrics.setValueByName store8 "M" (.vInt 2) (some 0) 99) =
      some 99 ∧ (99 : Nat) ≠ 0 := by
  exact ⟨rfl, by decide⟩

theorem C8_witness :
    (let m' : SparkplugMetric :=
      { metric8 with value := .vInt 2, timestamp := effTimestamp (some 7) 99,
                     isNull := JSValue.isVNull (.vInt 2) }
     Metrics.setValueByIndex store8 0 (.vInt 2) (some 7) 99 =
       .ok ({ store8 with array := store8.array.set 0 m' }, m')) ∧
    Metrics.setValueByName store8 "M" (.vInt 2) (some 7) 99 =
      Metrics.setValueByIndex store8 0 (.vInt 2) (some 7) 99 :=
  ⟨(C8_setters store8 (.vInt 2) (some 7) 99).1 0 metric8 rfl,
   (C8_setters store8 (.vInt 2) (some 7) 99).2.1 "M" 0 rfl⟩

theorem buildIndicesAux_aliasIndex :
    ∀ (l : List SparkplugMetric) (st : Metrics) (i : Nat),
      (Metrics.buildIndicesAux st i l).aliasIndex = st.aliasIndex
  | [], _, _ => rfl
  | m :: rest, st, i => by
      cases hg : indexGuard m <;>
        simp only [Metrics.buildIndicesAux, hg, if_true, if_false,
          Bool.false_eq_true, reduceIte] <;>
        exact buildIndicesAux_aliasIndex rest _ (i + 1)

/-- Claim C10 (amended): at the Metrics public interface, lookups and
updates on unregistered keys are not total, with two undefined-returning
exceptions: getByName on an unknown name AND getByAlias on an alias
never passed to setAlias both return undefined without error, while
setValueByName, setValueByAlias, getByAddress, getByAddrPath and
setValueByAddrPath on unregistered keys all throw a runtime TypeError
instead of returning an error value. The index builder never populates
the alias index (the line is commented out in the source), so a fresh
store has no registered aliases. -/
theorem C10_partiality :
    (∀ (st : Metrics) (n : String) (v : JSValue) (ts : Option Nat) (now : Nat),
      lookupA st.nameIndex n = none →
      Metrics.getByName st n = .ok none ∧
      Metrics.setValueByName st n v ts now = .typeError) ∧
    (∀ (st : Metrics) (a : Nat) (v : JSValue) (ts : Option Nat) (now : Nat),
      lookupA st.aliasIndex a = none →
      Metrics.getByAlias st a = .ok none ∧
      Metrics.setValueByAlias st a v ts now = .typeError) ∧
    (∀ (st : Metrics) (addr : String),
      lookupA st.addrIndex addr = none →
      Metrics.getByAddress st addr = .typeError) ∧
    (∀ (st : Metrics) (addr path : String) (v : JSValue) (ts : Option Nat)
        (now : Nat),
      lookupA st.addrPathIndex addr = none →
      Metrics.getByAddrPath st addr path = .typeError ∧
      Metrics.setValueByAddrPath st addr path v ts now = .typeError) ∧
    (∀ l : List SparkplugMetric, (Metrics.make l).aliasIndex = []) := by
  refine ⟨?_, ?_, ?_, ?_, ?_⟩
  · intro st n v ts now h
    exact ⟨by simp only [Metrics.getByName, h, Option.none_bind],
      by simp only [Metrics.setValueByName, h]⟩
  · intro st a v ts now h
    exact ⟨by simp only [Metrics.getByAlias, h, Option.none_bind],
      by simp only [Metrics.setValueByAlias, h]⟩
  · intro st addr h
    simp only [Metrics.getByAddress, h]
  · intro st addr path v ts now h
    exact ⟨by simp only [Metrics.getByAddrPath, h],
      by simp only [Metrics.setValueByAddrPath, h]⟩
  · intro l
    exact buildIndicesAux_aliasIndex l _ 0

/-- Claim C10 counterexample: getByAlias on an alias that was never
registered returns undefined (ok none) and does not throw a TypeError. -/
theorem C10_counterexample :
    Metrics.getByAlias store8 5 = .ok none ∧
    JsResult.ok (none : Option SparkplugMetric) ≠ JsResult.typeError := by
  refine ⟨rfl, fun h => JsResult.noConfusion h⟩

theorem C10_witness :
    (Metrics.getByName store8 "nope" = .ok none ∧
     Metrics.setValueByName store8 "nope" (.vInt 3) none 1 = .typeError) ∧
    (Metrics.getByAlias store8 5 = .ok none ∧
     Metrics.setValueByAlias store8 5 (.vInt 3) none 1 = .typeError) ∧
    Metrics.getByAddress store8 "addr" = .typeError ∧
    (Metrics.getByAddrPath store8 "addr" "p" = .typeError ∧
     Metrics.setValueByAddrPath store8 "addr" "p" (.vInt 3) none 1 = .typeError) ∧
    (Metrics.make [metric8]).aliasIndex = [] :=
  ⟨C10_partiality.1 store8 "nope" (.vInt 3) none 1 rfl,
   C10_partiality.2.1 store8 5 (.vInt 3) none 1 rfl,
   C10_partiality.2.2.1 store8 "addr" rfl,
   C10_partiality.2.2.2.1 store8 "addr" "p" (.vInt 3) none 1 rfl,
   C10_partiality.2.2.2.2 [metric8]⟩

theorem dupEach_map {α β : Type} (f : α → β) :
    ∀ l : List α, (dupEach l).map f = dupEach (l.map f)
  | [] => rfl
  | x :: xs => by simp [dupEach, dupEach_map f xs]

theorem buildIndicesAux_array :
    ∀ (l : List SparkplugMetric) (st : Metrics) (i : Nat),
      (Metrics.buildIndicesAux st i l).array = st.array
  | [], _, _ => rfl
  | m :: rest, st, i => by
      cases hg : indexGuard m <;>
        simp only [Metrics.buildIndicesAux, hg, Bool.false_eq_true,
          reduceIte] <;>
        exact buildIndicesAux_array rest _ (i + 1)

theorem build_noGet_addrIndex :
    ∀ (l : List SparkplugMetric) (st : Metrics) (i : Nat),
      (∀ m ∈ l, indexGuard m = false) →
      (Metrics.buildIndicesAux st i l).addrIndex = st.addrIndex
  | [], _, _, _ => rfl
  | m :: rest, st, i, h => by
      have hm : indexGuard m = false := h m (List.mem_cons_self m rest)
      simp only [Metrics.buildIndicesAux, hm, Bool.false_eq_true, reduceIte]
      exact build_noGet_addrIndex rest _ (i + 1)
        (fun x hx => h x (List.mem_cons_of_mem m hx))

theorem build_addrIndex_lookup (a : String) :
    ∀ (l : List SparkplugMetric) (st : Metrics) (i : Nat),
      lookupA (Metrics.buildIndicesAux st i l).addrIndex a =
        extendOpt (lookupA st.addrIndex a) (matchingIdxAux a i l)
  | [], st, i => by
      cases h : lookupA st.addrIndex a <;>
        simp [Metrics.buildIndicesAux, matchingIdxAux, extendOpt, h, dupEach]
  | m :: rest, st, i => by
      cases hg : indexGuard m with
      | false =>
          have hmt : matchesAddr a m = false := by
            simp [matchesAddr, hg]
          simp only [Metrics.buildIndicesAux, hg, Bool.false_eq_true,
            reduceIte, matchingIdxAux, hmt]
          exact build_addrIndex_lookup a rest _ (i + 1)
      | true =>
          by_cases ha : addrKey m = a
          · have hmt : matchesAddr a m = true := by
              simp [matchesAddr, hg, ha]
            simp only [Metrics.buildIndicesAux, hg, reduceIte,
              matchingIdxAux, hmt]
            rw [build_addrIndex_lookup a rest _ (i + 1)]
            rw [ha, lookupA_upsertA_self]
            cases hcur : lookupA st.addrIndex a <;>
              cases hjs : matchingIdxAux a (i + 1) rest <;>
              simp [extendOpt, dupEach, hcur, hjs]
          · have hmt : matchesAddr a m = false := by
              simp [matchesAddr, ha]
            simp only [Metrics.buildIndicesAux, hg, reduceIte,
              matchingIdxAux, hmt, Bool.false_eq_true]
            rw [build_addrIndex_lookup a rest _ (i + 1)]
            rw [lookupA_upsertA_ne _ _ _ _ ha]

theorem matchingIdx_map_get (a : String) :
    ∀ (l : List SparkplugMetric) (i : Nat) (full : List SparkplugMetric),
      (∀ k, full.get? (i + k) = l.get? k) →
      (matchingIdxAux a i l).map (full.get? ·) =
        (matchingMetrics l a).map some
  | [], _, _, _ => rfl
  | m :: rest, i, full, h => by
      have h0 : full.get? i = some m := by
        simpa using h 0
      have hshift : ∀ k, full.get? ((i + 1) + k) = rest.get? k := by
        intro k
        have := h (k + 1)
        rw [show i + (k + 1) = (i + 1) + k by omega] at this
        simpa using this
      cases hmt : matchesAddr a m with
      | false =>
          simp only [matchingIdxAux, matchingMetrics, List.filter_cons, hmt,
            Bool.false_eq_true, reduceIte]
          exact matchingIdx_map_get a rest (i + 1) full hshift
      | true =>
          simp only [matchingIdxAux, matchingMetrics, List.filter_cons, hmt,
            reduceIte, List.map_cons, h0]
          exact congrArg _ (matchingIdx_map_get a rest (i + 1) full hshift)

theorem getByAddress_build (L : List SparkplugMetric) (a : String)
    (ni : List (String × Nat)) (ai : List (Nat × Nat))
    (api : List (String × List (String × Nat))) :
    Metrics.getByAddress (Metrics.buildIndicesAux ⟨L, ni, ai, [], api⟩ 0 L) a =
      (if (matchingMetrics L a).isEmpty then .typeError
       else .ok (dupEach ((matchingMetrics L a).map some))) := by
  have hlook := build_addrIndex_lookup a L ⟨L, ni, ai, [], api⟩ 0
  have hstorearr : (Metrics.buildIndicesAux ⟨L, ni, ai, [], api⟩ 0 L).array = L :=
    buildIndicesAux_array L _ 0
  have hmap := matchingIdx_map_get a L 0 L (fun k => by simp)
  cases hjs : matchingIdxAux a 0 L with
  | nil =>
      rw [hjs] at hmap
      have hmm : matchingMetrics L a = [] := by simpa using hmap.symm
      simp only [Metrics.getByAddress, hlook, hjs, extendOpt, lookupA, hmm,
        List.isEmpty_nil, if_true]
  | cons j js' =>
      rw [hjs] at hmap
      have hne : (matchingMetrics L a).isEmpty = false := by
        cases hmm : matchingMetrics L a with
        | nil => rw [hmm] at hmap; simp at hmap
        | cons x xs => rfl
      simp only [Metrics.getByAddress, hlook, hjs, extendOpt, lookupA, hne,
        Bool.false_eq_true, reduceIte, Option.getD_none, List.nil_append]
      rw [hstorearr, dupEach_map, hmap]

/-- Claim C9: when a Metrics store whose constructor list holds no
GET-indexed metric (as with the default metrics, whose method is empty)
receives one add of a metric list, the index-building loop pushes each
GET metric position onto the address index twice, so getByAddress
returns each matching metric exactly twice (in array order, each
occurrence doubled) rather than once per metric; an address with no
matching GET metric still throws. -/
theorem C9_getByAddress_twice :
    ∀ (l0 l1 : List SparkplugMetric) (a : String),
      (∀ m ∈ l0, indexGuard m = false) →
      Metrics.getByAddress ((Metrics.make l0).add l1) a =
        (if (matchingMetrics (l0 ++ l1) a).isEmpty then .typeError
         else .ok (dupEach ((matchingMetrics (l0 ++ l1) a).map some))) := by
  intro l0 l1 a h0
  have harr0 : (Metrics.make l0).array = l0 := buildIndicesAux_array l0 _ 0
  have hidx0 : (Metrics.make l0).addrIndex = [] :=
    build_noGet_addrIndex l0 _ 0 h0
  rcases hmk : Metrics.make l0 with ⟨arr, ni, ai, adi, api⟩
  rw [hmk] at harr0 hidx0
  replace harr0 : arr = l0 := harr0
  replace hidx0 : adi = [] := hidx0
  subst harr0
  subst hidx0
  show Metrics.getByAddress
      (Metrics.buildIndicesAux ⟨arr ++ l1, ni, ai, [], api⟩ 0 (arr ++ l1)) a = _
  exact getByAddress_build (arr ++ l1) a ni ai api

theorem C9_witness :
    Metrics.getByAddress ((Metrics.make [metric8]).add [metricG]) "A" =
      (if (matchingMetrics ([metric8] ++ [metricG]) "A").isEmpty then .typeError
       else .ok (dupEach ((matchingMetrics ([metric8] ++ [metricG]) "A").map some))) ∧
    Metrics.getByAddress ((Metrics.make [metric8]).add [metricG]) "A" =
      .ok [some metricG, some metricG] :=
  ⟨C9_getByAddress_twice [metric8] [metricG] "A"
      (by intro m hm; rw [List.mem_singleton] at hm; subst hm; rfl),
   rfl⟩

theorem handleCmdMetric_default (c : CmdContext) (m : CmdMetric) (now : Nat)
    (h : isControlName m.name = false) :
    handleCmdMetric c m now =
      .ok (c, readOnlyLog c.store m, (writableTarget c.store m).toList) := by
  obtain ⟨⟨h1, h2⟩, h3⟩ :
      (¬(m.name = "Device Control/Reboot") ∧
        ¬(m.name = "Device Control/Rebirth")) ∧ ¬(m.name = pollName) := by
    simpa [isControlName] using h
  simp only [handleCmdMetric, readOnlyLog, writableTarget, Metrics.getByName,
    h1, h2, h3, if_false, reduceIte]
  cases ho : (lookupA c.store.nameIndex m.name).bind (c.store.array.get? ·) with
  | none => simp [ho]
  | some pm =>
      by_cases hp : pm.properties.isSome = true ∧ ¬propsMethod pm = "GET"
      · simp [ho, hp]
      · simp [ho, hp]

theorem handleDCmdAux_default (now : Nat) :
    ∀ (payload : List CmdMetric) (c : CmdContext),
      (∀ m ∈ payload, isControlName m.name = false) →
      handleDCmdAux c now payload =
        .ok (c, dcmdLogs c.store payload, dcmdQueued c.store payload)
  | [], c, _ => by simp [handleDCmdAux, dcmdLogs, dcmdQueued]
  | m :: rest, c, h => by
      have hm := h m (List.mem_cons_self m rest)
      have hrest := handleDCmdAux_default now rest c
        (fun x hx => h x (List.mem_cons_of_mem m hx))
      simp only [handleDCmdAux, handleCmdMetric_default c m now hm, hrest,
        dcmdLogs, dcmdQueued, List.map_cons, List.flatten_cons,
        List.filterMap_cons]
      cases hwt : writableTarget c.store m <;> simp [hwt]

/-- Claim C4 (amended): in _handleDCmd, a DCMD metric outside the three
Device Control names whose target metric has no properties bag or whose
method is exactly the string GET is logged read only, with no driver
write queued and no DATA published for it; a target with a properties
bag and any method other than exactly GET (including methods that merely
start with GET, such as GET_POLL) is queued and flushed as one batch
driver write after the payload loop; in general a default-case payload
produces its read-only logs in order followed by at most one batch
driver write holding exactly the queued metrics. -/
theorem C4_dcmd_read_only :
    (∀ (c : CmdContext) (m : CmdMetric) (now : Nat) (pm : SparkplugMetric),
      isControlName m.name = false →
      Metrics.getByName c.store m.name = .ok (some pm) →
      ¬(pm.properties.isSome = true ∧ propsMethod pm ≠ "GET") →
      handleDCmd c [m] now = .ok (c, [.logReadOnly m.name])) ∧
    (∀ (c : CmdContext) (m : CmdMetric) (now : Nat) (pm : SparkplugMetric),
      isControlName m.name = false →
      Metrics.getByName c.store m.name = .ok (some pm) →
      pm.properties.isSome = true → propsMethod pm ≠ "GET" →
      handleDCmd c [m] now =
        .ok (c, [.driverWrite [{ pm with value := m.value }]])) ∧
    (∀ (c : CmdContext) (payload : List CmdMetric) (now : Nat),
      (∀ m ∈ payload, isControlName m.name = false) →
      handleDCmd c payload now =
        .ok (c, dcmdLogs c.store payload ++
          dcmdFlush (dcmdQueued c.store payload))) := by
  refine ⟨?_, ?_, ?_⟩
  · intro c m now pm hc hres hro
    have ho : (lookupA c.store.nameIndex m.name).bind (c.store.array.get? ·) =
        some pm := by
      simpa [Metrics.getByName] using hres
    simp only [List.get?_eq_getElem?] at ho
    have hsingle : ∀ mm ∈ [m], isControlName mm.name = false := by
      intro mm hmm
      rw [List.mem_singleton] at hmm
      subst hmm
      exact hc
    simp [handleDCmd, handleDCmdAux_default now [m] c hsingle, dcmdLogs,
      dcmdQueued, readOnlyLog, writableTarget, Metrics.getByName, ho, hro,
      dcmdFlush]
  · intro c m now pm hc hres hps hmeth
    have ho : (lookupA c.store.nameIndex m.name).bind (c.store.array.get? ·) =
        some pm := by
      simpa [Metrics.getByName] using hres
    simp only [List.get?_eq_getElem?] at ho
    have hsingle : ∀ mm ∈ [m], isControlName mm.name = false := by
      intro mm hmm
      rw [List.mem_singleton] at hmm
      subst hmm
      exact hc
    simp [handleDCmd, handleDCmdAux_default now [m] c hsingle, dcmdLogs,
      dcmdQueued, readOnlyLog, writableTarget, Metrics.getByName, ho, hps,
      hmeth, dcmdFlush]
  · intro c payload now hcn
    simp [handleDCmd, handleDCmdAux_default now payload c hcn, dcmdFlush]

/-- Claim C4 counterexample: the method GET_POLL starts with GET, yet the
command handler queues a driver write for the metric (and logs no read
only message) instead of treating it as read only, because the source
compares the method against the exact string GET. -/
theorem C4_counterexample :
    strBeginsWith "GET_POLL" "GET" = true ∧
    handleDCmd ctxT [{ name := "T", value := .vInt 7, timestamp := none }] 0 =
      .ok (ctxT, [.driverWrite [{ metricT with value := .vInt 7 }]]) := by
  exact ⟨rfl, rfl⟩

theorem C4_witness :
    handleDCmd ctxG [{ name := "G", value := .vInt 7, timestamp := none }] 0 =
      .ok (ctxG, [.logReadOnly "G"]) ∧
    handleDCmd ctxT [{ name := "T", value := .vInt 7, timestamp := none }] 0 =
      .ok (ctxT, [.driverWrite [{ metricT with value := .vInt 7 }]]) ∧
    handleDCmd ctxG ([] : List CmdMetric) 0 =
      .ok (ctxG, dcmdLogs ctxG.store [] ++ dcmdFlush (dcmdQueued ctxG.store [])) :=
  ⟨C4_dcmd_read_only.1 ctxG { name := "G", value := .vInt 7, timestamp := none }
      0 metricG rfl rfl (by simp [metricG, propsMethod]),
   C4_dcmd_read_only.2.1 ctxT { name := "T", value := .vInt 7, timestamp := none }
      0 metricT rfl rfl rfl (by simp [metricT, propsMethod]),
   C4_dcmd_read_only.2.2 ctxG [] 0 (by intro m hm; cases hm)⟩

theorem effTimestamp_idem (ts : Option Nat) (now : Nat) :
    effTimestamp (some (effTimestamp ts now)) now = effTimestamp ts now := by
  cases ts with
  | none =>
      simp only [effTimestamp]
      split <;> rfl
  | some t =>
      by_cases ht : t = 0 <;> simp [effTimestamp, ht]

theorem handleCmdMetric_poll (c : CmdContext) (v : JSValue) (ts : Option Nat)
    (now : Nat) (i : Nat) (pm : SparkplugMetric)
    (h1 : lookupA c.store.nameIndex pollName = some i)
    (h2 : c.store.array.get? i = some pm) :
    handleCmdMetric c { name := pollName, value := v, timestamp := ts } now =
      .ok (pollResultCtx c (c.store.array.set i (updatedMetric pm v ts now)),
        [.stopSubscription, .updateStoreValue pollName v] ++
          pollPublish c.alive c.connected
            { name := pollName, value := v, timestamp := ts } ++
          [.startSubscription v, .writeConfigKey "pollInt" v], []) := by
  obtain ⟨st, al, cn⟩ := c
  have h1' : lookupA st.nameIndex pollName = some i := h1
  have h2' : st.array.get? i = some pm := h2
  have hsv : Metrics.setValueByName st pollName v
      (some (effTimestamp ts now)) now =
      .ok ({ st with array := st.array.set i (updatedMetric pm v ts now) },
        updatedMetric pm v ts now) := by
    simp only [Metrics.setValueByName, h1', Metrics.setValueByIndex, h2']
    rw [effTimestamp_idem]
    rfl
  have hget : Metrics.getByName
      ({ st with array := st.array.set i (updatedMetric pm v ts now) } : Metrics)
      pollName = .ok (some (updatedMetric pm v ts now)) := by
    show JsResult.ok ((lookupA st.nameIndex pollName).bind
        ((st.array.set i (updatedMetric pm v ts now)).get? ·)) =
      JsResult.ok (some (updatedMetric pm v ts now))
    rw [h1', Option.some_bind,
      listGet?_set_self st.array i (updatedMetric pm v ts now) pm h2']
  have hv : (updatedMetric pm v ts now).value = v := rfl
  cases al <;> cases cn <;>
    (simp only [handleCmdMetric, hsv, publishDDataActions, hget, hv,
      if_true, reduceIte]
     rw [if_neg (by decide : ¬(pollName = "Device Control/Reboot")),
       if_neg (by decide : ¬(pollName = "Device Control/Rebirth"))]
     simp [pollResultCtx, pollPublish, hget, hv])
theorem updateDevices_get_nonmatching (n k : String) (v : JSValue) :
    ∀ (ds : List ConfDevice) (j : Nat) (d' : ConfDevice),
      ds.get? j = some d' → d'.deviceId ≠ n →
      (updateDevices ds n k v).get? j = some d'
  | [], j, _, h, _ => by simp [List.get?] at h
  | d :: rest, 0, d', h, hne => by
      simp only [List.get?] at h
      injection h with h
      subst h
      simp only [updateDevices, if_neg hne]
      rfl
  | d :: rest, j + 1, d', h, hne => by
      simp only [List.get?] at h
      simp only [updateDevices]
      by_cases hd : d.deviceId = n
      · rw [if_pos hd]
        simpa [List.get?] using h
      · rw [if_neg hd]
        simpa [List.get?] using
          updateDevices_get_nonmatching n k v rest j d' h hne

theorem updateDevices_get_matching (n k : String) (v : JSValue) :
    ∀ (ds : List ConfDevice) (j : Nat) (d0 : ConfDevice),
      (ds.map ConfDevice.deviceId).Nodup →
      ds.get? j = some d0 → d0.deviceId = n →
      (updateDevices ds n k v).get? j =
        some { d0 with entries := upsertA d0.entries k v }
  | [], j, _, _, h, _ => by simp [List.get?] at h
  | d :: rest, 0, d0, _, h, hid => by
      simp only [List.get?] at h
      injection h with h
      subst h
      simp only [updateDevices, if_pos hid]
      rfl
  | d :: rest, j + 1, d0, hnd, h, hid => by
      simp only [List.get?] at h
      have hmem : d0 ∈ rest := List.get?_mem h
      rw [List.map_cons, List.nodup_cons] at hnd
      by_cases hd : d.deviceId = n
      · exfalso
        apply hnd.1
        rw [hd, ← hid]
        exact List.mem_map_of_mem ConfDevice.deviceId hmem
      · simp only [updateDevices, if_neg hd]
        simpa [List.get?] using
          updateDevices_get_matching n k v rest j d0 hnd.2 h hid

/-- Claim C6 (amended): on a DCMD for Device Control/Polling Interval
the handler performs exactly, in order: stop the subscription, update
the metric in the store (value, timestamp with the now-fallback,
isNull), report the new value through _publishDData (which publishes
one DATA frame containing that command metric exactly when the device
is alive, publishes a BIRTH instead when it is not alive but connected,
and publishes nothing when disconnected), restart the subscription with
the interval read back from the store (the new value), and initiate the
config rewrite of the pollInt key; the config rewrite sets pollInt to
the new value on the matching device entry of every connection
(assuming deviceIds are unique within a connection) while leaving
non-matching entries unchanged in place. -/
theorem C6_polling_interval :
    (∀ (c : CmdContext) (v : JSValue) (ts : Option Nat) (now : Nat)
        (i : Nat) (pm : SparkplugMetric),
      lookupA c.store.nameIndex pollName = some i →
      c.store.array.get? i = some pm →
      handleDCmd c [{ name := pollName, value := v, timestamp := ts }] now =
        .ok (pollResultCtx c (c.store.array.set i (updatedMetric pm v ts now)),
          [.stopSubscription, .updateStoreValue pollName v] ++
            pollPublish c.alive c.connected
              { name := pollName, value := v, timestamp := ts } ++
            [.startSubscription v, .writeConfigKey "pollInt" v])) ∧
    (∀ (cn : Bool) (m : CmdMetric),
      pollPublish true cn m = [.publishData [m]]) ∧
    (∀ (cn : Bool) (m : CmdMetric),
      DevAction.publishData [m] ∉ pollPublish false cn m ∧
      (pollPublish false cn m = [.publishBirth] ↔ cn = true)) ∧
    (∀ (conf : List ConfConnection) (devName : String) (v : JSValue)
        (ci : Nat) (c0 : ConfConnection) (di : Nat) (d0 : ConfDevice),
      conf.get? ci = some c0 →
      c0.devices.get? di = some d0 →
      (c0.devices.map ConfDevice.deviceId).Nodup →
      d0.deviceId = devName →
      ((updateConfig conf devName "pollInt" v).get? ci =
         some { c0 with
                devices := updateDevices c0.devices devName "pollInt" v } ∧
       (updateDevices c0.devices devName "pollInt" v).get? di =
         some { d0 with entries := upsertA d0.entries "pollInt" v } ∧
       lookupA (upsertA d0.entries "pollInt" v) "pollInt" = some v ∧
       (∀ (dj : Nat) (dOther : ConfDevice),
         c0.devices.get? dj = some dOther →
         dOther.deviceId ≠ devName →
         (updateDevices c0.devices devName "pollInt" v).get? dj =
           some dOther))) := by
  refine ⟨?_, ?_, ?_, ?_⟩
  · intro c v ts now i pm h1 h2
    simp only [handleDCmd, handleDCmdAux,
      handleCmdMetric_poll c v ts now i pm h1 h2]
    simp
  · intro cn m
    rfl
  · intro cn m
    cases cn <;> simp [pollPublish]
  · intro conf devName v ci c0 di d0 hci hdi hnd hid
    refine ⟨?_, ?_, ?_, ?_⟩
    · rw [List.get?_eq_getElem?] at hci
      simp only [updateConfig]
      rw [List.get?_eq_getElem?, List.getElem?_map, hci]
      rfl
    · exact updateDevices_get_matching devName "pollInt" v c0.devices di d0
        hnd hdi hid
    · exact lookupA_upsertA_self d0.entries "pollInt" v
    · intro dj dOther hdj hne
      exact updateDevices_get_nonmatching devName "pollInt" v c0.devices dj
        dOther hdj hne
/-- Claim C6 counterexample: on a connected device that is not alive
(as after a watchdog DEATH), the Polling Interval command publishes a
BIRTH instead of the claimed DATA frame for the metric. -/
theorem C6_counterexample :
    resultActions (handleDCmd ctx6dead
        [{ name := pollName, value := .vInt 2500, timestamp := none }] 7) =
      [.stopSubscription, .updateStoreValue pollName (.vInt 2500),
       .publishBirth, .startSubscription (.vInt 2500),
       .writeConfigKey "pollInt" (.vInt 2500)] ∧
    DevAction.publishData
        [{ name := pollName, value := .vInt 2500, timestamp := none }] ∉
      ([.stopSubscription, .updateStoreValue pollName (.vInt 2500),
        .publishBirth, .startSubscription (.vInt 2500),
        .writeConfigKey "pollInt" (.vInt 2500)] : List DevAction) := by
  refine ⟨rfl, ?_⟩
  intro hmem
  simp at hmem

theorem C6_witness :
    handleDCmd ctx6
        [{ name := pollName, value := .vInt 2500, timestamp := none }] 7 =
      .ok (pollResultCtx ctx6
             (ctx6.store.array.set 0
               (updatedMetric pollMetric6 (.vInt 2500) none 7)),
        [.stopSubscription, .updateStoreValue pollName (.vInt 2500)] ++
          pollPublish ctx6.alive ctx6.connected
            { name := pollName, value := .vInt 2500, timestamp := none } ++
          [.startSubscription (.vInt 2500),
           .writeConfigKey "pollInt" (.vInt 2500)]) ∧
    pollPublish true true
        { name := pollName, value := .vInt 2500, timestamp := none } =
      [.publishData [{ name := pollName, value := .vInt 2500, timestamp := none }]] ∧
    (updateConfig conf6 "dev1" "pollInt" (.vInt 2500)).get? 0 =
      some { confConn6 with
             devices := updateDevices confConn6.devices "dev1" "pollInt" (.vInt 2500) } ∧
    (updateDevices confConn6.devices "dev1" "pollInt" (.vInt 2500)).get? 0 =
      some { confDev6 with entries := upsertA confDev6.entries "pollInt" (.vInt 2500) } ∧
    lookupA (upsertA confDev6.entries "pollInt" (.vInt 2500)) "pollInt" =
      some (.vInt 2500) :=
  ⟨C6_polling_interval.1 ctx6 (.vInt 2500) none 7 0 pollMetric6 rfl rfl,
   C6_polling_interval.2.1 true
     { name := pollName, value := .vInt 2500, timestamp := none },
   (C6_polling_interval.2.2.2 conf6 "dev1" (.vInt 2500) 0 confConn6 0 confDev6
      rfl rfl (by decide) rfl).1,
   (C6_polling_interval.2.2.2 conf6 "dev1" (.vInt 2500) 0 confConn6 0 confDev6
      rfl rfl (by decide) rfl).2.1,
   (C6_polling_interval.2.2.2 conf6 "dev1" (.vInt 2500) 0 confConn6 0 confDev6
      rfl rfl (by decide) rfl).2.2.1⟩
